import Mathlib

/-!
Verification of the Contextify progressive analysis event pipeline.

The definitions below are a shallow embedding of the code:
- `getSeverityFromIssues`, `mergeNodeJS`, `onEvent`, `onMessage`,
  `handleAnalysisComplete` embed the reconciliation logic of
  `Frontend/src/pages/Dashboard.tsx` (the `connectToSSE` handler);
- `streamLoop` embeds the backend SSE `event_generator` loop shown in
  `SSE_IMPLEMENTATION.md`.
JavaScript objects keyed by file path are embedded as association lists,
`JSON.parse` failure is embedded as an `Option.none` argument to the
message handler (the `catch` block only logs), and the severity string
union of the frontend is embedded as the inductive type `Severity`.
-/

/-- The severity tier union type of the frontend (`FileNode["severity"]`). -/
inductive Severity where
  | gray
  | green
  | yellow
  | orange
  | red
  | purple
  deriving DecidableEq

/-- One issue finding as carried in `issues_by_file` entries; the code reads
`i.severity` (an arbitrary string) and `i.description`. -/
structure IssueRecord where
  description : String
  severity : String
  deriving DecidableEq

/-- The `issues_by_file` payload: JS object from file path to issue list,
embedded as an association list with unique keys in practice. -/
abbrev IssuesByFile := List (String × List IssueRecord)

/-- JS object property access `issuesByFile[key]`: first matching key, or
`none` when absent (JS `undefined`). -/
def lookupFile (ibf : IssuesByFile) (k : String) : Option (List IssueRecord) :=
  (ibf.find? (fun p => p.1 == k)).map (fun p => p.2)

/-- A graph node as held in the Dashboard state (`FileNode`). -/
structure FileNode where
  id : String
  path : String
  folder : String
  severity : Severity
  issues : Nat
  topIssue : Option String
  size : Option Nat
  deriving DecidableEq

/-- `getSeverityFromIssues` from Dashboard.tsx lines 14-25: empty list is
`green`; otherwise any critical gives `purple`, else any high gives `red`,
else any medium gives `orange`, else `yellow`. -/
def getSeverityFromIssues (issues : List IssueRecord) : Severity :=
  if issues.length = 0 then Severity.green
  else
    let hasCritical := issues.any (fun i => i.severity == "critical")
    let hasHigh := issues.any (fun i => i.severity == "high")
    let hasMedium := issues.any (fun i => i.severity == "medium")
    if hasCritical then Severity.purple
    else if hasHigh then Severity.red
    else if hasMedium then Severity.orange
    else Severity.yellow

/-- `node.path.replace(/\\/g, '/')` from Dashboard.tsx line 134: every
backslash character becomes a forward slash. -/
def normalizePath (p : String) : String :=
  String.mk (p.data.map (fun c => if c = '\\' then '/' else c))

/-- The per-node body of the `prevNodes.map` callback in Dashboard.tsx lines
132-157: look up the node's normalized path in `issues_by_file` (the batch
keys are used verbatim); if found with a non-empty list, reclassify; else if
the event type is `batch_complete` (always true at this point in the code),
mark green with zero issues; else return the node unchanged. -/
def mergeNodeJS (etype : String) (ibf : IssuesByFile) (node : FileNode) :
    FileNode :=
  let normalizedNodePath := normalizePath node.path
  match lookupFile ibf normalizedNodePath with
  | some fileIssues =>
    if fileIssues.length > 0 then
      { node with
        severity := getSeverityFromIssues fileIssues,
        issues := fileIssues.length,
        topIssue := fileIssues.head?.map IssueRecord.description }
    else if etype = "batch_complete" then
      { node with severity := Severity.green, issues := 0 }
    else node
  | none =>
    if etype = "batch_complete" then
      { node with severity := Severity.green, issues := 0 }
    else node

/-- A parsed SSE message as inspected by the Dashboard handler: its `type`
discriminant and the optional `issues_by_file` payload. -/
structure EventData where
  etype : String
  issues_by_file : Option IssuesByFile
  deriving DecidableEq

/-- The Dashboard state touched by the SSE handler: the node list (React
`nodes` state), the `rlmInProgress` flag, and whether the `EventSource`
handle is still open (`eventSourceRef.current` non-null). -/
structure DashState where
  nodes : List FileNode
  rlmInProgress : Bool
  connOpen : Bool
  deriving DecidableEq

/-- Dashboard.tsx lines 162-170: on `analysis_complete`, set
`rlmInProgress` to false unconditionally, then close the `EventSource`
handle only when it is still open. The Bool result records whether a
`close()` call was performed during this delivery. -/
def handleAnalysisComplete (s : DashState) : DashState × Bool :=
  let s1 := { s with rlmInProgress := false }
  if s1.connOpen then ({ s1 with connOpen := false }, true)
  else (s1, false)

/-- The body of the `onmessage` try block (Dashboard.tsx lines 123-170) for a
successfully parsed event: merge node updates when the event is a
`batch_complete` carrying `issues_by_file`, then run completion teardown when
the event is `analysis_complete`. -/
def onEvent (s : DashState) (d : EventData) : DashState :=
  let s1 :=
    match d.issues_by_file with
    | some ibf =>
      if d.etype = "batch_complete" then
        { s with nodes := s.nodes.map (mergeNodeJS d.etype ibf) }
      else s
    | none => s
  if d.etype = "analysis_complete" then (handleAnalysisComplete s1).1 else s1

/-- The whole `onmessage` handler (Dashboard.tsx lines 121-174): the
argument is the outcome of `JSON.parse(event.data)`; a parse failure throws,
and the `catch` block only logs, leaving all state untouched. -/
def onMessage (s : DashState) (parsed : Option EventData) : DashState :=
  match parsed with
  | none => s
  | some d => onEvent s d

/-- The backend `event_generator` polling loop from SSE_IMPLEMENTATION.md
lines 24-32, run for `fuel` ticks starting at tick `t` against a register
view `reg` (the `analysis_progress` entry observed at each tick, `none` when
the key is absent): whenever a record is present it is yielded, and the loop
breaks right after yielding an `analysis_complete` record. -/
def streamLoop (reg : Nat → Option EventData) : Nat → Nat → List EventData
  | 0, _ => []
  | fuel + 1, t =>
    match reg t with
    | some d =>
      if d.etype = "analysis_complete" then [d]
      else d :: streamLoop reg fuel (t + 1)
    | none => streamLoop reg fuel (t + 1)

/-- C3: for every sequence of IssueRecords, the severity classifier returns
purple if any issue is critical; otherwise red if any is high; otherwise
orange if any is medium; otherwise yellow if the sequence is non-empty; and
green if the sequence is empty. -/
theorem claim3_classifier_precedence (issues : List IssueRecord) :
    getSeverityFromIssues issues =
      (if issues.any (fun i => i.severity == "critical") then Severity.purple
       else if issues.any (fun i => i.severity == "high") then Severity.red
       else if issues.any (fun i => i.severity == "medium") then Severity.orange
       else if issues ≠ [] then Severity.yellow
       else Severity.green) := by
  cases issues with
  | nil => simp [getSeverityFromIssues]
  | cons a l => simp [getSeverityFromIssues]

/-- The merge never changes a node's path field. -/
theorem mergeNodeJS_path (etype : String) (ibf : IssuesByFile)
    (node : FileNode) : (mergeNodeJS etype ibf node).path = node.path := by
  unfold mergeNodeJS
  cases h : lookupFile ibf (normalizePath node.path) with
  | none => by_cases he : etype = "batch_complete" <;> simp [h, he]
  | some l =>
    by_cases hl : 0 < l.length
    · simp [h, hl]
    · by_cases he : etype = "batch_complete" <;> simp [h, he, hl]

/-- Applying the per-node merge twice with the same event data equals
applying it once. -/
theorem mergeNodeJS_idem (etype : String) (ibf : IssuesByFile)
    (node : FileNode) :
    mergeNodeJS etype ibf (mergeNodeJS etype ibf node)
      = mergeNodeJS etype ibf node := by
  cases node with
  | mk id path folder severity issues topIssue size =>
    unfold mergeNodeJS
    cases h : lookupFile ibf (normalizePath path) with
    | none =>
      by_cases he : etype = "batch_complete" <;> simp [h, he]
    | some l =>
      by_cases hl : 0 < l.length
      · simp [h, hl]
      · by_cases he : etype = "batch_complete" <;> simp [h, he, hl]

/-- Mapping the per-node merge twice over a node list equals mapping once. -/
theorem map_mergeNodeJS_idem (etype : String) (ibf : IssuesByFile)
    (ns : List FileNode) :
    (ns.map (mergeNodeJS etype ibf)).map (mergeNodeJS etype ibf)
      = ns.map (mergeNodeJS etype ibf) := by
  induction ns with
  | nil => rfl
  | cons n ns ih => simp [mergeNodeJS_idem, ih]

/-- C4: the batch_complete merge is idempotent — for every Dashboard state
and every batch_complete event (with or without an issues_by_file payload),
processing the same event twice yields the same state as processing it
once. -/
theorem claim4_merge_idempotent (s : DashState) (o : Option IssuesByFile) :
    onEvent (onEvent s (EventData.mk "batch_complete" o))
        (EventData.mk "batch_complete" o)
      = onEvent s (EventData.mk "batch_complete" o) := by
  unfold onEvent
  cases o with
  | none => simp
  | some ibf => simp [map_mergeNodeJS_idem, mergeNodeJS_idem]

/-- The spec scenario issue: a single high-severity finding. -/
def sqlIssue : IssueRecord :=
  { description := "SQL injection risk", severity := "high" }

/-- The spec scenario node, initially unclassified. -/
def appNode : FileNode :=
  { id := "n1", path := "src/app.py", folder := "src",
    severity := Severity.gray, issues := 0, topIssue := none, size := none }

/-- C2: processing a batch_complete event maps the per-node merge over the
node list; a node whose canonical path is found in issues_by_file with a
non-empty list gets severity classify(list), issue count = length of the
list, and topIssue = description of its first issue; a node found with an
empty list gets severity green and issue count 0. -/
theorem claim2_found_node_update (s : DashState) (ibf : IssuesByFile)
    (node : FileNode) (l : List IssueRecord)
    (hfound : lookupFile ibf (normalizePath node.path) = some l) :
    (onEvent s (EventData.mk "batch_complete" (some ibf))).nodes
        = s.nodes.map (mergeNodeJS "batch_complete" ibf)
    ∧ (l ≠ [] →
        mergeNodeJS "batch_complete" ibf node =
          { node with
            severity := getSeverityFromIssues l,
            issues := l.length,
            topIssue := l.head?.map IssueRecord.description })
    ∧ (l = [] →
        mergeNodeJS "batch_complete" ibf node =
          { node with severity := Severity.green, issues := 0 }) := by
  refine ⟨by simp [onEvent], ?_, ?_⟩
  · intro hne
    have hl := List.length_pos.mpr hne
    unfold mergeNodeJS
    simp [hfound, hl]
  · intro heq
    subst heq
    unfold mergeNodeJS
    simp [hfound]

/-- Witness for C2 at the spec scenario input: the covered node is
reclassified from the batch's issue list. -/
theorem claim2_found_node_update_witness :
    mergeNodeJS "batch_complete" [("src/app.py", [sqlIssue])] appNode =
      { appNode with
        severity := getSeverityFromIssues [sqlIssue],
        issues := [sqlIssue].length,
        topIssue := [sqlIssue].head?.map IssueRecord.description } :=
  (claim2_found_node_update (DashState.mk [appNode] true true)
    [("src/app.py", [sqlIssue])] appNode [sqlIssue] rfl).2.1 (by simp)

/-- C1 (code bug evidence): a node whose path is absent from the batch's
issues_by_file is NOT left unchanged — processing the batch_complete event
turns its gray severity into green with zero issues, because the
`else if (data.type === "batch_complete")` branch is always taken for
uncovered nodes. -/
theorem claim1_uncovered_node_changed :
    (onEvent (DashState.mk [appNode] true true)
        (EventData.mk "batch_complete" (some [("other.py", [sqlIssue])]))).nodes
      = [{ appNode with severity := Severity.green, issues := 0 }]
    ∧ appNode.severity = Severity.gray
    ∧ ({ appNode with severity := Severity.green, issues := 0 } : FileNode)
        ≠ appNode := by
  refine ⟨rfl, rfl, by decide⟩

/-- The classifier never returns the unclassified tier. -/
theorem getSeverityFromIssues_ne_gray (l : List IssueRecord) :
    getSeverityFromIssues l ≠ Severity.gray := by
  unfold getSeverityFromIssues
  split
  · simp
  · dsimp only
    split
    · simp
    · split
      · simp
      · split <;> simp

/-- C10: after processing a single batch_complete event carrying an
issues_by_file mapping, no node has severity gray — a node whose canonical
path maps to a non-empty issue list is classified from that list, and every
other node (found empty or not found at all) is set to green with issue
count 0, its remaining fields untouched. -/
theorem claim10_no_gray_after_batch (s : DashState) (ibf : IssuesByFile)
    (node : FileNode) (_hmem : node ∈ s.nodes) :
    (onEvent s (EventData.mk "batch_complete" (some ibf))).nodes
        = s.nodes.map (mergeNodeJS "batch_complete" ibf)
    ∧ (mergeNodeJS "batch_complete" ibf node).severity ≠ Severity.gray
    ∧ (∀ l, lookupFile ibf (normalizePath node.path) = some l → l ≠ [] →
        mergeNodeJS "batch_complete" ibf node =
          { node with
            severity := getSeverityFromIssues l,
            issues := l.length,
            topIssue := l.head?.map IssueRecord.description })
    ∧ ((lookupFile ibf (normalizePath node.path) = none
          ∨ lookupFile ibf (normalizePath node.path) = some []) →
        mergeNodeJS "batch_complete" ibf node =
          { node with severity := Severity.green, issues := 0 }) := by
  refine ⟨by simp [onEvent], ?_, ?_, ?_⟩
  · unfold mergeNodeJS
    cases h : lookupFile ibf (normalizePath node.path) with
    | none => simp [h]
    | some l =>
      by_cases hl : 0 < l.length
      · simp [h, hl, getSeverityFromIssues_ne_gray]
      · simp [h, hl]
  · intro l hfound hne
    have hl := List.length_pos.mpr hne
    unfold mergeNodeJS
    simp [hfound, hl]
  · intro hcase
    unfold mergeNodeJS
    cases hcase with
    | inl h => simp [h]
    | inr h => simp [h]

/-- Witness for C10: at the spec scenario input, the covered node does not
stay gray. -/
theorem claim10_no_gray_after_batch_witness :
    (mergeNodeJS "batch_complete" [("src/app.py", [sqlIssue])]
        appNode).severity ≠ Severity.gray :=
  (claim10_no_gray_after_batch (DashState.mk [appNode] true true)
    [("src/app.py", [sqlIssue])] appNode (by simp)).2.1

/-- C8: consumer-side termination is idempotent — from any state with the
connection handle still open, a first analysis_complete delivery performs the
close, and a duplicate delivery performs no second close and leaves the
state exactly as the first delivery left it. -/
theorem claim8_teardown_idempotent (s : DashState) (h : s.connOpen = true) :
    (handleAnalysisComplete s).2 = true
    ∧ handleAnalysisComplete (handleAnalysisComplete s).1
        = ((handleAnalysisComplete s).1, false) := by
  cases s with
  | mk nodes rlm conn =>
    simp only [DashState.connOpen] at h
    subst h
    simp [handleAnalysisComplete]

/-- Witness for C8: idempotent teardown at a concrete open-connection
state. -/
theorem claim8_teardown_idempotent_witness :
    (handleAnalysisComplete (DashState.mk [] true true)).2 = true
    ∧ handleAnalysisComplete
          (handleAnalysisComplete (DashState.mk [] true true)).1
        = ((handleAnalysisComplete (DashState.mk [] true true)).1, false) :=
  claim8_teardown_idempotent (DashState.mk [] true true) rfl

/-- C9: a message that fails to parse as JSON is skipped — the handler's
catch block only logs, so processing the malformed message leaves the whole
Dashboard state, in particular the merged node map and the open connection
handle, exactly as they were. -/
theorem claim9_malformed_message_noop (s : DashState) :
    onMessage s none = s
    ∧ (onMessage s none).nodes = s.nodes
    ∧ (onMessage s none).connOpen = s.connOpen :=
  ⟨rfl, rfl, rfl⟩

/-- Pointwise idempotence of the path-separator normalization map. -/
theorem map_normChar_idem (l : List Char) :
    ((l.map (fun c => if c = '\\' then '/' else c)).map
        (fun c => if c = '\\' then '/' else c))
      = l.map (fun c => if c = '\\' then '/' else c) := by
  induction l with
  | nil => rfl
  | cons c l ih =>
    simp only [List.map_cons, List.cons.injEq]
    refine ⟨?_, ih⟩
    by_cases hc : c = '\\'
    · subst hc; rfl
    · simp [hc]

/-- Normalizing path separators twice equals normalizing once. -/
theorem normalizePath_idem (p : String) :
    normalizePath (normalizePath p) = normalizePath p := by
  unfold normalizePath
  exact congrArg String.mk (map_normChar_idem p.data)

/-- Modelled from the claim's words for the refinement comparison only: a
lookup that applies the same canonicalization to the batch's keys as to the
node path. The code's lookup (`lookupFile` on raw keys) is compared against
this. -/
def lookupFileSpecCanonical (ibf : IssuesByFile) (p : String) :
    Option (List IssueRecord) :=
  lookupFile (ibf.map (fun q => (normalizePath q.1, q.2))) (normalizePath p)

/-- The batch issue list used in the C5 counterexample. -/
def criticalIssue : IssueRecord := { description := "boom", severity := "critical" }

/-- A node whose stored path uses backslashes. -/
def backslashNode : FileNode :=
  { id := "n2", path := "a\\b\\c.py", folder := "a",
    severity := Severity.gray, issues := 0, topIssue := none, size := none }

/-- C5 counterexample: batch keys are NOT canonicalized. With the batch key
written with backslashes, the claimed both-sides canonicalization would find
the node's own key (and classify it purple from its critical issue), but the
code's raw-key lookup misses it and the merge paints the node green. -/
theorem claim5_counterexample :
    (mergeNodeJS "batch_complete" [("a\\b\\c.py", [criticalIssue])]
        backslashNode).severity = Severity.green
    ∧ lookupFileSpecCanonical [("a\\b\\c.py", [criticalIssue])]
        backslashNode.path = some [criticalIssue]
    ∧ lookupFile [("a\\b\\c.py", [criticalIssue])]
        (normalizePath backslashNode.path) = none
    ∧ getSeverityFromIssues [criticalIssue] = Severity.purple :=
  ⟨rfl, rfl, rfl, rfl⟩

/-- C5 as amended: only the node path is canonicalized before the lookup —
batch keys are used verbatim — so a node behaves exactly like its
forward-slash twin (the three merged fields agree), and in particular a node
stored with backslashes matches a batch key written with forward slashes. -/
theorem claim5_amended_node_side_canonicalization (ibf : IssuesByFile)
    (n : FileNode) :
    ((mergeNodeJS "batch_complete" ibf n).severity
        = (mergeNodeJS "batch_complete" ibf
            { n with path := normalizePath n.path }).severity
      ∧ (mergeNodeJS "batch_complete" ibf n).issues
        = (mergeNodeJS "batch_complete" ibf
            { n with path := normalizePath n.path }).issues
      ∧ (mergeNodeJS "batch_complete" ibf n).topIssue
        = (mergeNodeJS "batch_complete" ibf
            { n with path := normalizePath n.path }).topIssue)
    ∧ (mergeNodeJS "batch_complete" [("a/b/c.py", [criticalIssue])]
          backslashNode).severity = getSeverityFromIssues [criticalIssue] := by
  refine ⟨?_, rfl⟩
  cases n with
  | mk id path folder severity issues topIssue size =>
    unfold mergeNodeJS
    simp only [normalizePath_idem]
    cases h : lookupFile ibf (normalizePath path) with
    | none => simp [h]
    | some l =>
      by_cases hl : 0 < l.length
      · simp [h, hl]
      · simp [h, hl]

/-- A non-terminal register record used in the stream publisher claims. -/
def batchRecord : EventData := EventData.mk "batch_complete" (some [])

/-- C6 counterexample: the generator has no newness check. With the register
holding the same non-terminal record at ticks 0 and 1, the record delivered
at tick 0 is re-emitted at tick 1. -/
theorem claim6_counterexample :
    streamLoop (fun _ => some batchRecord) 2 0 = [batchRecord, batchRecord] :=
  rfl

/-- C6 as amended: on every tick at which a record is present in the
register, the generator emits it, regardless of whether it was already
delivered — a constant non-terminal record is re-emitted on every tick. -/
theorem claim6_amended_reemits_every_tick (d : EventData)
    (h : d.etype ≠ "analysis_complete") (n t : Nat) :
    streamLoop (fun _ => some d) n t = List.replicate n d := by
  induction n generalizing t with
  | zero => rfl
  | succ n ih => simp [streamLoop, h, ih, List.replicate_succ]

/-- Witness for the amended C6 at a concrete record and tick count. -/
theorem claim6_amended_reemits_every_tick_witness :
    streamLoop (fun _ => some batchRecord) 3 0 =
      List.replicate 3 batchRecord :=
  claim6_amended_reemits_every_tick batchRecord (by decide) 3 0

/-- The generator emits nothing while the register stays empty. -/
theorem streamLoop_empty_register (n t : Nat) :
    streamLoop (fun _ => none) n t = [] := by
  induction n generalizing t with
  | zero => rfl
  | succ n ih => simp [streamLoop, ih]

/-- Every record the generator emits was read from the register at some
tick: the generator never synthesizes an event of its own. -/
theorem streamLoop_emits_from_register (reg : Nat → Option EventData)
    (n t : Nat) (d : EventData) (hd : d ∈ streamLoop reg n t) :
    ∃ u, reg u = some d := by
  induction n generalizing t with
  | zero => simp [streamLoop] at hd
  | succ n ih =>
    simp only [streamLoop] at hd
    cases hq : reg t with
    | none =>
      rw [hq] at hd
      exact ih (t + 1) hd
    | some e =>
      rw [hq] at hd
      dsimp only at hd
      by_cases he : e.etype = "analysis_complete"
      · rw [if_pos he] at hd
        simp at hd
        subst hd
        exact ⟨t, hq⟩
      · rw [if_neg he] at hd
        cases hd with
        | head => exact ⟨t, hq⟩
        | tail _ h2 => exact ih (t + 1) h2

/-- C7 (code bug evidence): the generator's loop counts no ticks and never
emits a timeout event. If the producer never publishes a record whose type
is "timeout", no emitted event has type "timeout" after any number of ticks
(in particular not after 180); and with a producer that never publishes at
all, nothing is ever emitted. -/
theorem claim7_generator_never_times_out (reg : Nat → Option EventData)
    (n t : Nat)
    (hreg : ∀ u e, reg u = some e → e.etype ≠ "timeout") :
    (∀ d ∈ streamLoop reg n t, d.etype ≠ "timeout")
    ∧ streamLoop (fun _ => none) n t = [] := by
  refine ⟨?_, streamLoop_empty_register n t⟩
  intro d hd
  obtain ⟨u, hu⟩ := streamLoop_emits_from_register reg n t d hd
  exact hreg u d hu

/-- Witness for C7: with a producer that never publishes, 181 ticks after
connection open the generator has emitted nothing — no timeout event
appeared at tick 180. -/
theorem claim7_generator_never_times_out_witness :
    streamLoop (fun _ => none) 181 0 = [] :=
  (claim7_generator_never_times_out (fun _ => none) 181 0
    (fun _ _ h => Option.noConfusion h)).2
